import Mathlib

/-!
Verification of the shaka-packager encryption data model and key-management
engine. The parameter structures are translated from
`packager/media/public/crypto_params.h`; the stream-type reporting from
`packager/media/base/stream_info.cc`. The engine operations (stream labeler,
crypto-period scheduler, provider fetch, PSSH builder, job-setup validation)
are not part of the visible sources and are modelled from the specification,
as marked in their doc comments. Bytes (`std::vector<uint8_t>`) are modelled
as `List Nat`, C++ `double` as `ℚ`, and `std::function` as an optional Lean
function.
-/

set_option linter.unusedVariables false

namespace shaka

/-- Encryption / decryption key providers (crypto_params.h, `enum class KeyProvider`). -/
inductive KeyProvider
  | kNone
  | kWidevine
  | kPlayready
  | kRawKey
deriving DecidableEq

/-- Signing key type of a `WidevineSigner` (crypto_params.h). `kNone` is invalid. -/
inductive SigningKeyType
  | kNone
  | kAes
  | kRsa
deriving DecidableEq

/-- Signer credential for the Widevine license server (crypto_params.h,
`struct WidevineSigner`); the anonymous `aes` and `rsa` payload structs are
flattened into named fields. -/
structure WidevineSigner where
  signer_name : String := ""
  signing_key_type : SigningKeyType := SigningKeyType.kNone
  aes_key : List Nat := []
  aes_iv : List Nat := []
  rsa_key : String := ""
deriving DecidableEq

/-- Widevine encryption parameters (crypto_params.h, `struct WidevineEncryptionParams`). -/
structure WidevineEncryptionParams where
  key_server_url : String := ""
  include_common_pssh : Bool := false
  content_id : List Nat := []
  policy : String := ""
  signer : WidevineSigner := {}
  group_id : List Nat := []
deriving DecidableEq

/-- Playready encryption parameters (crypto_params.h,
`struct PlayreadyEncryptionParams`). -/
structure PlayreadyEncryptionParams where
  key_server_url : String := ""
  program_identifier : String := ""
  ca_file : String := ""
  client_cert_file : String := ""
  client_cert_private_key_file : String := ""
  client_cert_private_key_password : String := ""
  key_id : List Nat := []
  key : List Nat := []
deriving DecidableEq

/-- A key-id / key pair (crypto_params.h, `RawKeyEncryptionParams::KeyPair`). -/
structure KeyPair where
  key_id : List Nat := []
  key : List Nat := []
deriving DecidableEq

/-- A stream label (crypto_params.h, `RawKeyEncryptionParams::StreamLabel`). -/
abbrev StreamLabel := String

/-- Raw key encryption parameters (crypto_params.h,
`struct RawKeyEncryptionParams`); the `std::map` is modelled as an
association list. -/
structure RawKeyEncryptionParams where
  iv : List Nat := []
  pssh : List Nat := []
  key_map : List (StreamLabel × KeyPair) := []
deriving DecidableEq

/-- Stream type of `EncryptionParams::EncryptedStreamAttributes` (crypto_params.h). -/
inductive AttrStreamType
  | kUnknown
  | kVideo
  | kAudio
deriving DecidableEq

/-- Encrypted stream attributes (crypto_params.h,
`EncryptionParams::EncryptedStreamAttributes`); the C++ `union OneOf` is
flattened into disjoint video and audio fields, meaningless unless
`stream_type` matches. The `float frame_rate` is modelled as `ℚ`. -/
structure EncryptedStreamAttributes where
  stream_type : AttrStreamType := AttrStreamType.kUnknown
  video_width : Int := 0
  video_height : Int := 0
  video_frame_rate : ℚ := 0
  video_bit_depth : Int := 0
  audio_number_of_channels : Int := 0
deriving DecidableEq

/-- `EncryptionParams::kProtectionSchemeCenc` (crypto_params.h line 132). -/
def kProtectionSchemeCenc : Nat := 0x63656E63

/-- `EncryptionParams::kProtectionSchemeCbc1` (crypto_params.h line 133). -/
def kProtectionSchemeCbc1 : Nat := 0x63626331

/-- `EncryptionParams::kProtectionSchemeCens` (crypto_params.h line 134). -/
def kProtectionSchemeCens : Nat := 0x63656E73

/-- `EncryptionParams::kProtectionSchemeCbcs` (crypto_params.h line 135). -/
def kProtectionSchemeCbcs : Nat := 0x63626373

/-- `EncryptionParams::kNoKeyRotation` (crypto_params.h line 139). -/
def kNoKeyRotation : ℚ := 0

/-- Encryption parameters (crypto_params.h, `struct EncryptionParams`), with
the C++ member initializers as Lean field defaults. `stream_label_func` is a
`std::function`, default-constructed (unset) by default. -/
structure EncryptionParams where
  key_provider : KeyProvider := KeyProvider.kNone
  widevine : WidevineEncryptionParams := {}
  playready : PlayreadyEncryptionParams := {}
  raw_key : RawKeyEncryptionParams := {}
  clear_lead_in_seconds : ℚ := 0
  protection_scheme : Nat := kProtectionSchemeCenc
  crypto_period_duration_in_seconds : ℚ := kNoKeyRotation
  vp9_subsample_encryption : Bool := true
  stream_label_func : Option (EncryptedStreamAttributes → StreamLabel) := none

/-- The big-endian four-character-code encoding of four ASCII characters. -/
def fourCC (a b c d : Char) : Nat :=
  ((a.toNat * 256 + b.toNat) * 256 + c.toNat) * 256 + d.toNat

/-- Stream type of a `StreamInfo` (declared in stream_info.h, which is not
under the visible sources; members as referenced by stream_info.cc and the
media base layer: unknown, audio, video and text streams). -/
inductive StreamType
  | kStreamUnknown
  | kStreamAudio
  | kStreamVideo
  | kStreamText
deriving DecidableEq

/-- The descriptive stream metadata holder (stream_info.cc constructor fields;
the `Codec` enumeration is opaque here and modelled as `Nat`). -/
structure StreamInfo where
  stream_type : StreamType
  track_id : Int := 0
  time_scale : Nat := 0
  duration : Nat := 0
  codec : Nat := 0
  codec_string : String := ""
  codec_config : List Nat := []
  language : String := ""
  is_encrypted : Bool := false
deriving DecidableEq

/-- The type name emitted by `StreamInfo::ToString` (stream_info.cc line 46):
the ternary `(stream_type_ == kStreamAudio ? "Audio" : "Video")`. -/
def StreamInfo.typeName (s : StreamInfo) : String :=
  if s.stream_type = StreamType.kStreamAudio then "Audio" else "Video"

/-- Fatal error kinds of the engine (spec section 7). -/
inductive EngineError
  | ConfigurationError
  | KeyProviderError
  | LabelingError
deriving DecidableEq

/-- The provider substruct selected by `key_provider`. Modelled from the spec:
section 3's invariant that `EncryptionParams` is a tagged union in which only
the substruct matching the provider is authoritative (the engine code reading
the substructs is not under the visible sources). -/
inductive ProviderConfig
  | none
  | widevine (w : WidevineEncryptionParams)
  | playready (p : PlayreadyEncryptionParams)
  | rawKey (r : RawKeyEncryptionParams)
deriving DecidableEq

/-- Modelled from the spec: the projection of an `EncryptionParams` to the one
substruct its `key_provider` selects (spec section 3, tagged-union invariant). -/
def EncryptionParams.selectedConfig (p : EncryptionParams) : ProviderConfig :=
  match p.key_provider with
  | KeyProvider.kNone => ProviderConfig.none
  | KeyProvider.kWidevine => ProviderConfig.widevine p.widevine
  | KeyProvider.kPlayready => ProviderConfig.playready p.playready
  | KeyProvider.kRawKey => ProviderConfig.rawKey p.raw_key

/-- Modelled from the spec: raw-key lookup of the key-source (spec section 4.2,
"Raw: no network call; looks up each label in `key_map`, falling back to the
empty-label default entry; fails if neither is present"; the raw key source
implementation is not under the visible sources). -/
def RawKeyEncryptionParams.findKey (r : RawKeyEncryptionParams)
    (label : StreamLabel) : Option KeyPair :=
  match r.key_map.lookup label with
  | some kp => some kp
  | Option.none => r.key_map.lookup ""

/-- Modelled from the spec: the default stream-label policy (spec section 4.1):
audio streams label by a channel-count bucket, video streams by a
resolution/bit-depth bucket, and the unknown type is a labeling error. The
bucket boundaries are representative; the claims depend only on the label
being a function of the bucket. -/
def streamBucket (a : EncryptedStreamAttributes) : AttrStreamType × String :=
  (a.stream_type,
    match a.stream_type with
    | AttrStreamType.kVideo =>
        (if a.video_height ≤ 576 then "SD"
         else if a.video_height ≤ 1080 then "HD" else "UHD") ++
        (if a.video_bit_depth ≤ 8 then "-8BIT" else "-10BIT")
    | AttrStreamType.kAudio =>
        if a.audio_number_of_channels ≤ 2 then "STEREO" else "SURROUND"
    | AttrStreamType.kUnknown => "")

/-- Modelled from the spec: the default stream labeler (spec section 4.1);
fails on the unknown stream type. -/
def defaultStreamLabel (a : EncryptedStreamAttributes) : Option StreamLabel :=
  match a.stream_type with
  | AttrStreamType.kUnknown => Option.none
  | AttrStreamType.kVideo => some ("VIDEO-" ++ (streamBucket a).2)
  | AttrStreamType.kAudio => some ("AUDIO-" ++ (streamBucket a).2)

/-- Modelled from the spec: the stream labeler (spec section 4.1): a configured
`stream_label_func` is trusted verbatim, otherwise the default policy applies. -/
def streamLabelOf (p : EncryptionParams) (a : EncryptedStreamAttributes) :
    Option StreamLabel :=
  match p.stream_label_func with
  | some f => some (f a)
  | Option.none => defaultStreamLabel a

/-- Modelled from the spec: the provider's network calls, abstracted as an
oracle (spec section 4.2; the Widevine and Playready key sources are not under
the visible sources). The oracle receives only the selected substruct, the
crypto-period index and the labels. -/
structure ProviderOracle where
  widevineFetch : WidevineEncryptionParams → Int → List StreamLabel →
    List (StreamLabel × KeyPair)
  playreadyFetch : PlayreadyEncryptionParams → Int → List StreamLabel →
    List (StreamLabel × KeyPair)

/-- Modelled from the spec: key fetching per provider (spec section 4.2):
Widevine performs a signed server request; Playready either returns the
statically configured raw key pair for every label (direct mode) or performs a
certificate-authenticated server request (server mode); raw mode looks labels
up in `key_map` with the empty-label fallback, labels with no entry being
absent from the result. -/
def providerFetch (o : ProviderOracle) (c : ProviderConfig) (index : Int)
    (labels : List StreamLabel) : List (StreamLabel × KeyPair) :=
  match c with
  | ProviderConfig.none => []
  | ProviderConfig.widevine w => o.widevineFetch w index labels
  | ProviderConfig.playready pr =>
      if !pr.key_id.isEmpty && !pr.key.isEmpty then
        labels.map (fun l => (l, { key_id := pr.key_id, key := pr.key }))
      else o.playreadyFetch pr index labels
  | ProviderConfig.rawKey r =>
      labels.filterMap (fun l => (r.findKey l).map (fun kp => (l, kp)))

/-- State of the crypto-period scheduler: the created periods, keyed by
period index, and the cached initial keys for the rotation-disabled case.
Modelled from the spec (section 4.3; the scheduler is not under the visible
sources). -/
structure SchedulerState where
  periods : List (Int × List (StreamLabel × KeyPair)) := []
  initialKeys : Option (List (StreamLabel × KeyPair)) := Option.none
deriving DecidableEq

/-- Modelled from the spec: the crypto-period scheduler operation
`ActiveKeys(timestamp, labels)` (spec section 4.3): with
`crypto_period_seconds == 0` rotation is disabled and the initial keys are
fetched once and cached forever; otherwise the period index is
`floor(timestamp / crypto_period_seconds)`, an existing period's keys are
returned as cached, and a missing period is synthesized by `FetchNextKeys`,
stored and returned. -/
def activeKeys (P : ℚ)
    (fetchInitial : List StreamLabel → List (StreamLabel × KeyPair))
    (fetchNext : Int → List StreamLabel → List (StreamLabel × KeyPair))
    (st : SchedulerState) (t : ℚ) (labels : List StreamLabel) :
    SchedulerState × List (StreamLabel × KeyPair) :=
  if P = 0 then
    match st.initialKeys with
    | some ks => (st, ks)
    | Option.none =>
        let ks := fetchInitial labels
        ({ st with initialKeys := some ks }, ks)
  else
    let index : Int := ⌊t / P⌋
    match st.periods.lookup index with
    | some ks => (st, ks)
    | Option.none =>
        let ks := fetchNext index labels
        ({ st with periods := (index, ks) :: st.periods }, ks)

/-- Modelled from the spec: load-time validation of the protection scheme
(spec section 6: the scheme is restricted to exactly the four identifiers,
any other value being a configuration error at load time). -/
def validateProtectionScheme (s : Nat) : Except EngineError Unit :=
  if s = kProtectionSchemeCenc ∨ s = kProtectionSchemeCbc1 ∨
      s = kProtectionSchemeCens ∨ s = kProtectionSchemeCbcs then
    Except.ok ()
  else Except.error EngineError.ConfigurationError

/-- Modelled from the spec: job-setup validation of the selected provider
substruct (spec sections 3 and 7): Playready requires both raw `key_id` and
`key` present (direct mode) or neither (server mode), mixed presence being a
configuration error; raw mode requires a non-empty `key_map`. -/
def validateProviderConfig (c : ProviderConfig) : Except EngineError Unit :=
  match c with
  | ProviderConfig.none => Except.ok ()
  | ProviderConfig.widevine _ => Except.ok ()
  | ProviderConfig.playready pr =>
      if pr.key_id.isEmpty == pr.key.isEmpty then Except.ok ()
      else Except.error EngineError.ConfigurationError
  | ProviderConfig.rawKey r =>
      if r.key_map.isEmpty then Except.error EngineError.ConfigurationError
      else Except.ok ()

/-- Modelled from the spec: eager job-setup validation (spec section 7:
configuration errors are detected at job setup, never at per-sample time). -/
def setupJob (p : EncryptionParams) : Except EngineError Unit :=
  match validateProtectionScheme p.protection_scheme with
  | Except.error e => Except.error e
  | Except.ok _ => validateProviderConfig p.selectedConfig

/-- Modelled from the spec: starting a packaging job validates the
configuration first and only then fetches the initial keys from the provider
(spec sections 4.2 and 7). -/
def startJob (o : ProviderOracle) (p : EncryptionParams)
    (labels : List StreamLabel) :
    Except EngineError (List (StreamLabel × KeyPair)) :=
  match setupJob p with
  | Except.error e => Except.error e
  | Except.ok _ => Except.ok (providerFetch o p.selectedConfig 0 labels)

/-- Modelled from the spec: the PSSH builder (spec section 4.5): a raw `pssh`
override is emitted verbatim; otherwise the provider-specific payload is
emitted, preceded by the common-system payload when common-PSSH inclusion is
requested. -/
def buildPssh (includeCommon : Bool) (rawOverride : List Nat)
    (commonPayload providerPayload : List Nat) : List Nat :=
  if !rawOverride.isEmpty then rawOverride
  else if includeCommon then commonPayload ++ providerPayload
  else providerPayload

/-- Modelled from the spec: the raw PSSH override in force, non-empty only in
raw-key mode (crypto_params.h `RawKeyEncryptionParams::pssh`). -/
def EncryptionParams.psshOverride (p : EncryptionParams) : List Nat :=
  match p.selectedConfig with
  | ProviderConfig.rawKey r => r.pssh
  | _ => []

/-- Modelled from the spec: whether a common-system PSSH payload is included:
requested by `include_common_pssh` for Widevine (crypto_params.h line 58) and
generated for raw keys when no override is injected (crypto_params.h
lines 103-104). -/
def EncryptionParams.includeCommonPssh (p : EncryptionParams) : Bool :=
  match p.selectedConfig with
  | ProviderConfig.widevine w => w.include_common_pssh
  | ProviderConfig.rawKey r => r.pssh.isEmpty
  | _ => false

/-- Modelled from the spec: the engine's PSSH output for the active keys,
given the constructed common-system and provider-specific payloads
(spec section 4.5). -/
def enginePssh (p : EncryptionParams) (commonPayload providerPayload : List Nat) :
    List Nat :=
  buildPssh p.includeCommonPssh p.psshOverride commonPayload providerPayload

/-- Sample-level encryption mode resolved by the protection-scheme policy. -/
inductive EncryptionMode
  | fullSample
  | subsample
deriving DecidableEq

/-- Modelled from the spec: the protection-scheme policy (spec section 4.4):
`cens`/`cbcs` imply subsample (pattern) encryption, `cenc`/`cbc1` full-sample
encryption; VP9 uses subsample encryption only when `vp9_subsample_encryption`
is enabled. -/
def schemePolicy (s : Nat) (isVp9 : Bool) (vp9Subsample : Bool) :
    EncryptionMode :=
  if isVp9 && !vp9Subsample then EncryptionMode.fullSample
  else if s = kProtectionSchemeCens ∨ s = kProtectionSchemeCbcs then
    EncryptionMode.subsample
  else EncryptionMode.fullSample

/-- Modelled from the spec: the policy applied to one stream of an
`EncryptionParams` (spec section 4.4). -/
def EncryptionParams.policyFor (p : EncryptionParams) (isVp9 : Bool) :
    EncryptionMode :=
  schemePolicy p.protection_scheme isVp9 p.vp9_subsample_encryption

/-- Modelled from the spec: the facade's per-sample encryption step
(spec section 4.6): `kNone` means no encryption; timestamps inside the clear
lead bypass encryption without consulting the scheduler; otherwise the stream
is labelled, the scheduler resolves the active keys of the sample's crypto
period, and the label's key pair is used. -/
def engineEncryptStep (o : ProviderOracle) (p : EncryptionParams)
    (st : SchedulerState) (a : EncryptedStreamAttributes) (t : ℚ) :
    SchedulerState × Option KeyPair :=
  if p.key_provider = KeyProvider.kNone then (st, Option.none)
  else if t < p.clear_lead_in_seconds then (st, Option.none)
  else
    match streamLabelOf p a with
    | Option.none => (st, Option.none)
    | some label =>
        let res := activeKeys p.crypto_period_duration_in_seconds
          (fun ls => providerFetch o p.selectedConfig 0 ls)
          (fun i ls => providerFetch o p.selectedConfig i ls)
          st t [label]
        (res.1, res.2.lookup label)

/-- Agreement of two configurations on the provider kind, the selected
substruct and the shared fields, the non-selected substructs being arbitrary
(spec section 3, tagged-union invariant). -/
def SharedAgree (p1 p2 : EncryptionParams) : Prop :=
  p1.key_provider = p2.key_provider ∧
  p1.selectedConfig = p2.selectedConfig ∧
  p1.clear_lead_in_seconds = p2.clear_lead_in_seconds ∧
  p1.protection_scheme = p2.protection_scheme ∧
  p1.crypto_period_duration_in_seconds = p2.crypto_period_duration_in_seconds ∧
  p1.vp9_subsample_encryption = p2.vp9_subsample_encryption ∧
  p1.stream_label_func = p2.stream_label_func

end shaka

namespace shaka

/-- Claim C8: a default-constructed `EncryptionParams` has
`key_provider == kNone`, `clear_lead_in_seconds == 0`,
`protection_scheme == cenc`, `crypto_period_duration_in_seconds == 0`
(key rotation disabled), and `vp9_subsample_encryption == true`. -/
theorem default_encryption_params :
    ({} : EncryptionParams).key_provider = KeyProvider.kNone ∧
    ({} : EncryptionParams).clear_lead_in_seconds = 0 ∧
    ({} : EncryptionParams).protection_scheme = kProtectionSchemeCenc ∧
    ({} : EncryptionParams).crypto_period_duration_in_seconds = 0 ∧
    ({} : EncryptionParams).vp9_subsample_encryption = true :=
  ⟨rfl, rfl, rfl, rfl, rfl⟩

/-- Claim C9: the four protection-scheme constants are the big-endian
four-character-code encodings of their ASCII names "cenc", "cbc1", "cens",
"cbcs", and are pairwise distinct. -/
theorem protection_scheme_constants_fourcc :
    kProtectionSchemeCenc = fourCC 'c' 'e' 'n' 'c' ∧
    kProtectionSchemeCbc1 = fourCC 'c' 'b' 'c' '1' ∧
    kProtectionSchemeCens = fourCC 'c' 'e' 'n' 's' ∧
    kProtectionSchemeCbcs = fourCC 'c' 'b' 'c' 's' ∧
    kProtectionSchemeCenc ≠ kProtectionSchemeCbc1 ∧
    kProtectionSchemeCenc ≠ kProtectionSchemeCens ∧
    kProtectionSchemeCenc ≠ kProtectionSchemeCbcs ∧
    kProtectionSchemeCbc1 ≠ kProtectionSchemeCens ∧
    kProtectionSchemeCbc1 ≠ kProtectionSchemeCbcs ∧
    kProtectionSchemeCens ≠ kProtectionSchemeCbcs := by
  refine ⟨?_, ?_, ?_, ?_, ?_, ?_, ?_, ?_, ?_, ?_⟩ <;> decide

/-- Claim C10: `StreamInfo::ToString` reports the type as "Video" for every
stream type other than `kStreamAudio` (including text and unknown streams),
and as "Audio" exactly for `kStreamAudio`. -/
theorem stream_info_type_name (s : StreamInfo)
    (h : s.stream_type ≠ StreamType.kStreamAudio) :
    s.typeName = "Video" ∧
    ∀ s' : StreamInfo, s'.typeName = "Audio" ↔
      s'.stream_type = StreamType.kStreamAudio := by
  constructor
  · simp [StreamInfo.typeName, h]
  · intro s'
    by_cases h' : s'.stream_type = StreamType.kStreamAudio <;>
      simp [StreamInfo.typeName, h']

/-- If two timestamps fall in the same crypto period (or rotation is
disabled), a second `activeKeys` call after a first one returns the first
call's keys: the scheduler is a cache keyed by period index. -/
lemma activeKeys_repeat (P : ℚ)
    (fi : List StreamLabel → List (StreamLabel × KeyPair))
    (fn : Int → List StreamLabel → List (StreamLabel × KeyPair))
    (st : SchedulerState) (labels : List StreamLabel) (t1 t2 : ℚ)
    (hfloor : ⌊t1 / P⌋ = ⌊t2 / P⌋) :
    (activeKeys P fi fn (activeKeys P fi fn st t1 labels).1 t2 labels).2
      = (activeKeys P fi fn st t1 labels).2 := by
  unfold activeKeys
  by_cases hP : P = 0
  · simp only [hP, if_pos rfl]
    cases h : st.initialKeys with
    | none => simp [h]
    | some ks => simp [h]
  · simp only [if_neg hP]
    rw [← hfloor]
    cases h : st.periods.lookup ⌊t1 / P⌋ with
    | none => simp [h, List.lookup]
    | some ks => simp [h]

/-- Claim C5: for every crypto period duration P > 0, every label set and all
timestamps t1, t2 with floor(t1/P) == floor(t2/P), the scheduler operation
`ActiveKeys` returns byte-identical key pairs for t1 and t2, including when
the second call arrives out of timestamp order for an already-created
period. -/
theorem active_keys_idempotent_per_period (P : ℚ) (hP : 0 < P)
    (fetchInitial : List StreamLabel → List (StreamLabel × KeyPair))
    (fetchNext : Int → List StreamLabel → List (StreamLabel × KeyPair))
    (st : SchedulerState) (labels : List StreamLabel) (t1 t2 : ℚ)
    (hfloor : ⌊t1 / P⌋ = ⌊t2 / P⌋) :
    (activeKeys P fetchInitial fetchNext
        (activeKeys P fetchInitial fetchNext st t1 labels).1 t2 labels).2
      = (activeKeys P fetchInitial fetchNext st t1 labels).2 :=
  activeKeys_repeat P fetchInitial fetchNext st labels t1 t2 hfloor

/-- Witness for C5 with period 10 and the out-of-order timestamps 25 then 21,
both in period index 2, on an empty scheduler state. -/
theorem active_keys_idempotent_per_period_witness :
    (0:ℚ) < 10 ∧ ⌊(25:ℚ) / 10⌋ = ⌊(21:ℚ) / 10⌋ ∧
    (activeKeys 10 (fun _ => [])
        (fun i _ => [("SD", { key_id := [i.toNat], key := [2 * i.toNat] })])
        ((activeKeys 10 (fun _ => [])
            (fun i _ => [("SD", { key_id := [i.toNat], key := [2 * i.toNat] })])
            {} 25 ["SD"]).1) 21 ["SD"]).2
      = (activeKeys 10 (fun _ => [])
          (fun i _ => [("SD", { key_id := [i.toNat], key := [2 * i.toNat] })])
          ({} : SchedulerState) 25 ["SD"]).2 :=
  ⟨by norm_num,
   by rw [show ⌊(25:ℚ) / 10⌋ = 2 by norm_num [Int.floor_eq_iff],
          show ⌊(21:ℚ) / 10⌋ = 2 by norm_num [Int.floor_eq_iff]],
   active_keys_idempotent_per_period 10 (by norm_num) _ _ {} ["SD"] 25 21
     (by rw [show ⌊(25:ℚ) / 10⌋ = 2 by norm_num [Int.floor_eq_iff],
             show ⌊(21:ℚ) / 10⌋ = 2 by norm_num [Int.floor_eq_iff]])⟩

/-- Claim C2: in raw-key mode, key lookup returns the entry for the requested
label when present, otherwise the empty-string default entry when that is
present, and fails otherwise; when `key_map` contains only the empty-label
entry, every label resolves to that key pair. -/
theorem raw_key_default_fallback (r : RawKeyEncryptionParams)
    (L : StreamLabel) :
    (∀ kp, r.key_map.lookup L = some kp → r.findKey L = some kp) ∧
    (r.key_map.lookup L = Option.none →
      r.findKey L = r.key_map.lookup "") ∧
    (∀ kp, r.key_map = [("", kp)] → r.findKey L = some kp) := by
  refine ⟨?_, ?_, ?_⟩
  · intro kp h
    simp [RawKeyEncryptionParams.findKey, h]
  · intro h
    simp [RawKeyEncryptionParams.findKey, h]
  · intro kp h
    by_cases hL : L = ""
    · subst hL
      simp [RawKeyEncryptionParams.findKey, h, List.lookup]
    · simp only [RawKeyEncryptionParams.findKey, h, List.lookup]
      cases hb : L == "" <;> simp [hb]

/-- Witness for C2: a map holding only the default entry resolves the label
"VIDEO" to that entry. -/
theorem raw_key_default_fallback_witness :
    ({ key_map := [("", { key_id := [1], key := [2] })] } :
        RawKeyEncryptionParams).findKey "VIDEO"
      = some { key_id := [1], key := [2] } :=
  (raw_key_default_fallback
      { key_map := [("", { key_id := [1], key := [2] })] } "VIDEO").2.2
    { key_id := [1], key := [2] } rfl

/-- Claim C3: a Playready configuration with exactly one of the raw `key_id`
and `key` non-empty fails job setup with a configuration error before any key
fetch is attempted (for every oracle); both-present (direct mode) and
neither-present (server mode) configurations pass this validation. -/
theorem playready_mixed_presence_config_error (p : EncryptionParams)
    (hp : p.key_provider = KeyProvider.kPlayready) :
    (p.playready.key_id.isEmpty ≠ p.playready.key.isEmpty →
      ∀ (o : ProviderOracle) (labels : List StreamLabel),
        startJob o p labels = Except.error EngineError.ConfigurationError) ∧
    (p.playready.key_id.isEmpty = p.playready.key.isEmpty →
      validateProviderConfig p.selectedConfig = Except.ok ()) := by
  have hsel : p.selectedConfig = ProviderConfig.playready p.playready := by
    simp [EncryptionParams.selectedConfig, hp]
  constructor
  · intro hmix o labels
    have hbeq : (p.playready.key_id.isEmpty == p.playready.key.isEmpty)
        = false := beq_eq_false_iff_ne.mpr hmix
    unfold startJob setupJob validateProtectionScheme
    by_cases hs : p.protection_scheme = kProtectionSchemeCenc ∨
        p.protection_scheme = kProtectionSchemeCbc1 ∨
        p.protection_scheme = kProtectionSchemeCens ∨
        p.protection_scheme = kProtectionSchemeCbcs
    · simp [hs, hsel, validateProviderConfig, hbeq]
    · simp [hs]
  · intro heq
    rw [hsel]
    simp [validateProviderConfig, heq]

/-- Witness for C3: only `key_id` set, with an arbitrary oracle. -/
theorem playready_mixed_presence_config_error_witness :
    startJob ⟨fun _ _ _ => [], fun _ _ _ => []⟩
        { key_provider := KeyProvider.kPlayready,
          playready := { key_id := [1] } } []
      = Except.error EngineError.ConfigurationError :=
  (playready_mixed_presence_config_error
      { key_provider := KeyProvider.kPlayready,
        playready := { key_id := [1] } } rfl).1
    (by decide) ⟨fun _ _ _ => [], fun _ _ _ => []⟩ []

/-- Claim C4: the protection scheme passes load-time validation exactly when
it is one of the four identifiers cenc, cbc1, cens, cbcs; any other value
makes the whole job fail with a configuration error at load, before any
provider interaction. -/
theorem protection_scheme_load_validation (p : EncryptionParams) :
    (validateProtectionScheme p.protection_scheme = Except.ok () ↔
      (p.protection_scheme = kProtectionSchemeCenc ∨
       p.protection_scheme = kProtectionSchemeCbc1 ∨
       p.protection_scheme = kProtectionSchemeCens ∨
       p.protection_scheme = kProtectionSchemeCbcs)) ∧
    (¬(p.protection_scheme = kProtectionSchemeCenc ∨
       p.protection_scheme = kProtectionSchemeCbc1 ∨
       p.protection_scheme = kProtectionSchemeCens ∨
       p.protection_scheme = kProtectionSchemeCbcs) →
      ∀ (o : ProviderOracle) (labels : List StreamLabel),
        startJob o p labels = Except.error EngineError.ConfigurationError) := by
  constructor
  · unfold validateProtectionScheme
    by_cases hs : p.protection_scheme = kProtectionSchemeCenc ∨
        p.protection_scheme = kProtectionSchemeCbc1 ∨
        p.protection_scheme = kProtectionSchemeCens ∨
        p.protection_scheme = kProtectionSchemeCbcs
    · simp [hs]
    · simp [hs]
  · intro hs o labels
    unfold startJob setupJob validateProtectionScheme
    simp [hs]

/-- Witness for C4 at the out-of-range scheme value 0x61626364 ("abcd"). -/
theorem protection_scheme_load_validation_witness :
    ¬((0x61626364 : Nat) = kProtectionSchemeCenc ∨
      (0x61626364 : Nat) = kProtectionSchemeCbc1 ∨
      (0x61626364 : Nat) = kProtectionSchemeCens ∨
      (0x61626364 : Nat) = kProtectionSchemeCbcs) ∧
    startJob ⟨fun _ _ _ => [], fun _ _ _ => []⟩
        { protection_scheme := 0x61626364 } []
      = Except.error EngineError.ConfigurationError :=
  ⟨by decide,
   (protection_scheme_load_validation { protection_scheme := 0x61626364 }).2
     (by decide) ⟨fun _ _ _ => [], fun _ _ _ => []⟩ []⟩

/-- Claim C7: for every key provider, when common-PSSH inclusion is in force
and no raw pssh override is supplied, the built PSSH output is the
common-system payload followed by the provider-specific payload, in that
order. -/
theorem pssh_common_system_first (p : EncryptionParams)
    (commonPayload providerPayload : List Nat)
    (hc : p.includeCommonPssh = true) (hr : p.psshOverride = []) :
    enginePssh p commonPayload providerPayload
      = commonPayload ++ providerPayload := by
  simp [enginePssh, buildPssh, hc, hr]

/-- Witness for C7 on a Widevine configuration requesting the common PSSH. -/
theorem pssh_common_system_first_witness :
    enginePssh
        { key_provider := KeyProvider.kWidevine,
          widevine := { include_common_pssh := true } } [1, 2] [3]
      = [1, 2] ++ [3] :=
  pssh_common_system_first
    { key_provider := KeyProvider.kWidevine,
      widevine := { include_common_pssh := true } } [1, 2] [3] rfl rfl

/-- Claim C1: the engine's behaviour depends only on the substruct selected
by `key_provider` and the shared fields: two configurations agreeing on the
provider kind, the selected substruct, clear lead, protection scheme, crypto
period, VP9 flag and label function, but differing arbitrarily in the
non-selected substructs, give identical results on every engine operation
(per-sample encryption step, setup validation, job start with its initial
fetch, PSSH building, protection-scheme policy). -/
theorem provider_substruct_noninterference (p1 p2 : EncryptionParams)
    (h : SharedAgree p1 p2) :
    (∀ (o : ProviderOracle) (st : SchedulerState)
        (a : EncryptedStreamAttributes) (t : ℚ),
      engineEncryptStep o p1 st a t = engineEncryptStep o p2 st a t) ∧
    setupJob p1 = setupJob p2 ∧
    (∀ (o : ProviderOracle) (labels : List StreamLabel),
      startJob o p1 labels = startJob o p2 labels) ∧
    (∀ commonPayload providerPayload : List Nat,
      enginePssh p1 commonPayload providerPayload
        = enginePssh p2 commonPayload providerPayload) ∧
    (∀ isVp9 : Bool, p1.policyFor isVp9 = p2.policyFor isVp9) := by
  obtain ⟨hkp, hsel, hcl, hps, hcp, hvp9, hlf⟩ := h
  have hsetup : setupJob p1 = setupJob p2 := by
    simp only [setupJob, hps, hsel]
  refine ⟨?_, hsetup, ?_, ?_, ?_⟩
  · intro o st a t
    simp only [engineEncryptStep, streamLabelOf, hkp, hcl, hcp, hlf, hsel]
  · intro o labels
    simp only [startJob, hsetup, hsel]
  · intro commonPayload providerPayload
    simp only [enginePssh, EncryptionParams.includeCommonPssh,
      EncryptionParams.psshOverride, hsel]
  · intro isVp9
    simp only [EncryptionParams.policyFor, hps, hvp9]

/-- Witness for C1: two raw-key configurations differing only in the unused
Widevine policy field behave identically on the encryption step. -/
theorem provider_substruct_noninterference_witness :
    SharedAgree
      { key_provider := KeyProvider.kRawKey,
        widevine := { policy := "A" },
        raw_key := { key_map := [("", { key_id := [1], key := [2] })] } }
      { key_provider := KeyProvider.kRawKey,
        widevine := { policy := "B" },
        raw_key := { key_map := [("", { key_id := [1], key := [2] })] } } ∧
    engineEncryptStep ⟨fun _ _ _ => [], fun _ _ _ => []⟩
        { key_provider := KeyProvider.kRawKey,
          widevine := { policy := "A" },
          raw_key := { key_map := [("", { key_id := [1], key := [2] })] } }
        {} { stream_type := AttrStreamType.kVideo } 12
      = engineEncryptStep ⟨fun _ _ _ => [], fun _ _ _ => []⟩
          { key_provider := KeyProvider.kRawKey,
            widevine := { policy := "B" },
            raw_key := { key_map := [("", { key_id := [1], key := [2] })] } }
          {} { stream_type := AttrStreamType.kVideo } 12 :=
  ⟨⟨rfl, rfl, rfl, rfl, rfl, rfl, rfl⟩,
   (provider_substruct_noninterference
      { key_provider := KeyProvider.kRawKey,
        widevine := { policy := "A" },
        raw_key := { key_map := [("", { key_id := [1], key := [2] })] } }
      { key_provider := KeyProvider.kRawKey,
        widevine := { policy := "B" },
        raw_key := { key_map := [("", { key_id := [1], key := [2] })] } }
      ⟨rfl, rfl, rfl, rfl, rfl, rfl, rfl⟩).1
     ⟨fun _ _ _ => [], fun _ _ _ => []⟩ {}
     { stream_type := AttrStreamType.kVideo } 12⟩

/-- Claim C6: for every pair of streams whose attributes map to the same
stream label under the configured labeler (a configured `stream_label_func`
or the default policy), the engine resolves the same key pair for both
streams within any given crypto period: encrypting the second stream right
after the first, at a timestamp of the same period index and outside the
clear lead, yields the key pair of the first. In particular, two streams with
identical type and resolution/bit-depth or channel bucket receive the same
label under the default labeler. -/
theorem same_label_same_keypair (o : ProviderOracle) (p : EncryptionParams)
    (st : SchedulerState) (a1 a2 : EncryptedStreamAttributes) (t1 t2 : ℚ)
    (hlabel : streamLabelOf p a1 = streamLabelOf p a2)
    (hprov : p.key_provider ≠ KeyProvider.kNone)
    (hlead1 : p.clear_lead_in_seconds ≤ t1)
    (hlead2 : p.clear_lead_in_seconds ≤ t2)
    (hfloor : ⌊t1 / p.crypto_period_duration_in_seconds⌋
        = ⌊t2 / p.crypto_period_duration_in_seconds⌋) :
    (streamBucket a1 = streamBucket a2 →
      defaultStreamLabel a1 = defaultStreamLabel a2) ∧
    (engineEncryptStep o p ((engineEncryptStep o p st a1 t1).1) a2 t2).2
      = (engineEncryptStep o p st a1 t1).2 := by
  constructor
  · intro hbucket
    have ht : a1.stream_type = a2.stream_type := congrArg Prod.fst hbucket
    have hs : (streamBucket a1).2 = (streamBucket a2).2 :=
      congrArg Prod.snd hbucket
    unfold defaultStreamLabel
    rw [← ht, hs]
  · have hlt1 : ¬ t1 < p.clear_lead_in_seconds := not_lt.mpr hlead1
    have hlt2 : ¬ t2 < p.clear_lead_in_seconds := not_lt.mpr hlead2
    simp only [engineEncryptStep, if_neg hprov, if_neg hlt1, if_neg hlt2,
      hlabel]
    cases hL : streamLabelOf p a2 with
    | none => simp
    | some L =>
        simp only []
        exact congrArg (fun ks => ks.lookup L)
          (activeKeys_repeat p.crypto_period_duration_in_seconds
            (fun ls => providerFetch o p.selectedConfig 0 ls)
            (fun i ls => providerFetch o p.selectedConfig i ls)
            st [L] t1 t2 hfloor)

/-- Witness for C6: under a configured label function assigning both streams
the label "ALL", two video streams of different resolutions share the key
pair, at the out-of-order timestamps 25 then 21 in a 10-second crypto
period. -/
theorem same_label_same_keypair_witness :
    streamLabelOf
        { key_provider := KeyProvider.kRawKey,
          raw_key := { key_map := [("", { key_id := [1], key := [2] })] },
          crypto_period_duration_in_seconds := 10,
          stream_label_func := some (fun _ => "ALL") }
        { stream_type := AttrStreamType.kVideo, video_width := 1280,
          video_height := 720, video_bit_depth := 8 }
      = streamLabelOf
          { key_provider := KeyProvider.kRawKey,
            raw_key := { key_map := [("", { key_id := [1], key := [2] })] },
            crypto_period_duration_in_seconds := 10,
            stream_label_func := some (fun _ => "ALL") }
          { stream_type := AttrStreamType.kVideo, video_width := 1920,
            video_height := 1080, video_bit_depth := 8 } ∧
    (engineEncryptStep ⟨fun _ _ _ => [], fun _ _ _ => []⟩
        { key_provider := KeyProvider.kRawKey,
          raw_key := { key_map := [("", { key_id := [1], key := [2] })] },
          crypto_period_duration_in_seconds := 10,
          stream_label_func := some (fun _ => "ALL") }
        ((engineEncryptStep ⟨fun _ _ _ => [], fun _ _ _ => []⟩
            { key_provider := KeyProvider.kRawKey,
              raw_key := { key_map := [("", { key_id := [1], key := [2] })] },
              crypto_period_duration_in_seconds := 10,
              stream_label_func := some (fun _ => "ALL") }
            {} { stream_type := AttrStreamType.kVideo, video_width := 1280,
                 video_height := 720, video_bit_depth := 8 } 25).1)
        { stream_type := AttrStreamType.kVideo, video_width := 1920,
          video_height := 1080, video_bit_depth := 8 } 21).2
      = (engineEncryptStep ⟨fun _ _ _ => [], fun _ _ _ => []⟩
          { key_provider := KeyProvider.kRawKey,
            raw_key := { key_map := [("", { key_id := [1], key := [2] })] },
            crypto_period_duration_in_seconds := 10,
            stream_label_func := some (fun _ => "ALL") }
          {} { stream_type := AttrStreamType.kVideo, video_width := 1280,
               video_height := 720, video_bit_depth := 8 } 25).2 :=
  ⟨rfl,
   (same_label_same_keypair ⟨fun _ _ _ => [], fun _ _ _ => []⟩
      { key_provider := KeyProvider.kRawKey,
        raw_key := { key_map := [("", { key_id := [1], key := [2] })] },
        crypto_period_duration_in_seconds := 10,
        stream_label_func := some (fun _ => "ALL") }
      {}
      { stream_type := AttrStreamType.kVideo, video_width := 1280,
        video_height := 720, video_bit_depth := 8 }
      { stream_type := AttrStreamType.kVideo, video_width := 1920,
        video_height := 1080, video_bit_depth := 8 }
      25 21 rfl (by decide) (by norm_num) (by norm_num)
      (by rw [show ⌊(25:ℚ) / 10⌋ = 2 by norm_num [Int.floor_eq_iff],
              show ⌊(21:ℚ) / 10⌋ = 2 by norm_num [Int.floor_eq_iff]])).2⟩

/-- Witness for C10 at a concrete text stream. -/
theorem stream_info_type_name_witness :
    ({ stream_type := StreamType.kStreamText } : StreamInfo).stream_type
        ≠ StreamType.kStreamAudio ∧
    ({ stream_type := StreamType.kStreamText } : StreamInfo).typeName
        = "Video" :=
  ⟨by decide,
   (stream_info_type_name { stream_type := StreamType.kStreamText }
      (by decide)).1⟩

end shaka
